import Mathlib

/-!
Shallow embedding of the session and credential flow of the stock dashboard
frontend: the `Login` component's submit and OTP handlers, the register/login
toggle, password validation, and the `App` component's startup token-validation
effect and logout handler.  Network responses are modelled by an explicit
outcome value; durable storage (`localStorage`) by the value at the fixed
`"token"` key together with a list of write operations each handler performs.
-/

/-- A parsed JSON response body.  JavaScript field access with `||` chains
treats a missing field and the empty string alike, so absent string fields are
modelled as `""` and `!!data.is_admin` as a plain `Bool`. -/
structure RespBody where
  detail : String := ""
  msg : String := ""
  access_token : String := ""
  user : String := ""
  is_admin : Bool := false
deriving Repr, DecidableEq

deriving instance DecidableEq for Except

/-- Outcome of a `fetch` call as the handlers observe it: either a response
with its `ok` flag and the result of `res.json()` (`Except.error m` when the
body is absent or not parsable JSON, carrying the parser's message), or a
network-level failure rejecting with a message. -/
inductive FetchOutcome where
  | resp (ok : Bool) (json : Except String RespBody)
  | netErr (message : String)
deriving Repr, DecidableEq

/-- The `Login` component's state hooks. -/
structure LoginState where
  username : String := ""
  email : String := ""
  password : String := ""
  isRegister : Bool := false
  error : String := ""
  otpStep : Bool := false
  otp : String := ""
deriving Repr, DecidableEq

/-- Result of running a `Login` handler: the new component state, the endpoint
paths fetched in order, the durable-storage writes performed (`some v` for
`setItem`, `none` for `removeItem`), and whether the `onLogin` callback ran. -/
structure HandlerResult where
  state : LoginState
  calls : List String := []
  storage : List (String × Option String) := []
  loginCb : Bool := false
deriving Repr, DecidableEq

/-- JavaScript `a || b` on strings, where `""` is falsy. -/
def jsOr (a b : String) : String := if a = "" then b else a

/-- JavaScript `String.prototype.toLowerCase` restricted to the characters the
flow uses. -/
def toLowerCase (s : String) : String := ⟨s.data.map Char.toLower⟩

/-- Does `pat` occur as a contiguous run inside `s`? -/
def containsSeq (pat : List Char) : List Char → Bool
  | [] => pat.isEmpty
  | c :: t => pat.isPrefixOf (c :: t) || containsSeq pat t

/-- JavaScript `String.prototype.includes`: substring containment. -/
def includesSubstr (s pat : String) : Bool := containsSeq pat.data s.data

/-- The special characters admitted by the password regex character class
`[A-Za-z\d@#$%^&*!()_+=\-\[\]\x7b\x7d|;:'",.<>/?\x60~]`. -/
def allowedSpecial (c : Char) : Bool :=
  (['@', '#', '$', '%', '^', '&', '*', '!', '(', ')', '_', '+', '=', '-',
    '[', ']', Char.ofNat 123, Char.ofNat 125, '|', ';', ':', Char.ofNat 39,
    Char.ofNat 34, ',', '.', '<', '>', '/', '?', Char.ofNat 96, '~']).contains c

/-- One character of the regex character class: a letter, a digit, or one of
the allowed special characters. -/
def allowedChar (c : Char) : Bool :=
  c.isAlpha || c.isDigit || allowedSpecial c

/-- `validatePassword` from `Login.jsx`: the regex
`^(?=.*[A-Za-z])(?=.*\d)[...]\x7b8,20\x7d$` — length 8 to 20, every character in
the allowed class, at least one letter and at least one digit. -/
def validatePassword (pw : String) : Bool :=
  decide (8 ≤ pw.length) && decide (pw.length ≤ 20) &&
    pw.data.all allowedChar && pw.data.any Char.isAlpha &&
    pw.data.any Char.isDigit

/-- Error message shown when local password validation fails. -/
def passwordError : String :=
  "Password must be 8-20 characters, include at least one letter and one number, and may contain special characters."

/-- `handleSubmit` from `Login.jsx`: dispatches on `isRegister`/`otpStep` to
the registration-request, registration-verify, or login-request branch.  Each
branch first clears the error, issues exactly one fetch, and updates state from
the outcome; a thrown error (network failure, `res.json()` rejection, or the
explicit `throw`) lands in the `catch` and becomes the error message. -/
def handleSubmit (st : LoginState) (o : FetchOutcome) : HandlerResult :=
  let s := { st with error := "" }
  if s.isRegister && !s.otpStep then
    { state :=
        (match o with
         | .netErr m => { s with error := m }
         | .resp ok json =>
           match json with
           | .error m => { s with error := m }
           | .ok data =>
             if !ok then
               if includesSubstr (toLowerCase data.detail) "exists" then
                 { s with
                     error := jsOr data.detail
                       (jsOr data.msg "User/email already exists") }
               else
                 { s with error := jsOr data.detail (jsOr data.msg "Error") }
             else if !validatePassword s.password then
               { s with error := passwordError }
             else
               { s with
                   otpStep := true
                   error := "OTP sent to your email. Enter it below to complete registration." }),
      calls := ["/register-request-otp"] }
  else if s.isRegister && s.otpStep then
    { state :=
        (match o with
         | .netErr m => { s with error := m }
         | .resp ok json =>
           match json with
           | .error m => { s with error := m }
           | .ok data =>
             if !ok then
               { s with error := jsOr data.detail (jsOr data.msg "Error") }
             else
               { s with
                   isRegister := false
                   otpStep := false
                   otp := ""
                   error := "Registration successful! Please log in." }),
      calls := ["/register-verify-otp"] }
  else
    { state :=
        (match o with
         | .netErr m => { s with error := m }
         | .resp ok json =>
           match json with
           | .error m => { s with error := m }
           | .ok data =>
             if !ok then
               { s with error := jsOr data.detail (jsOr data.msg "Error") }
             else
               { s with
                   otpStep := true
                   error := "OTP sent to your email. Enter it below to log in." }),
      calls := ["/login-request-otp"] }

/-- `handleOtpLogin` from `Login.jsx`: posts the entered code to
`/login-verify-otp`; on a 2xx response it stores `access_token` under the
`"token"` key (only when the field is truthy), leaves the OTP step, and calls
`onLogin`; any thrown error becomes the error message. -/
def handleOtpLogin (st : LoginState) (o : FetchOutcome) : HandlerResult :=
  let s := { st with error := "" }
  match o with
  | .netErr m => { state := { s with error := m }, calls := ["/login-verify-otp"] }
  | .resp ok json =>
    match json with
    | .error m => { state := { s with error := m }, calls := ["/login-verify-otp"] }
    | .ok data =>
      if !ok then
        { state := { s with error := jsOr data.detail (jsOr data.msg "Error") },
          calls := ["/login-verify-otp"] }
      else
        { state := { s with otpStep := false, otp := "" },
          calls := ["/login-verify-otp"],
          storage :=
            if data.access_token = "" then []
            else [("token", some data.access_token)],
          loginCb := true }

/-- The register/login toggle button's `onClick` in `Login.jsx`:
`setIsRegister(!isRegister); setError("")`. -/
def toggleRegister (s : LoginState) : LoginState :=
  { s with isRegister := !s.isRegister, error := "" }

/-- The `App` component's session-relevant state hooks. -/
structure AppState where
  isLoggedIn : Bool := false
  isAdmin : Bool := false
  token : String := ""
  view : String := "market-overview"
deriving Repr, DecidableEq

/-- Result of an `App`-level step: the new state, the value left at the
durable `"token"` storage key, and the endpoints fetched. -/
structure AppResult where
  state : AppState
  storedToken : Option String
  calls : List String := []
deriving Repr, DecidableEq

/-- `App`'s initial state: `token` starts as `localStorage.getItem("token") || ""`. -/
def initialAppState (stored : Option String) : AppState :=
  { token := stored.getD "" }

/-- The token-validation `useEffect` in `App.jsx` (`restoreSession`): the
guard `if (!t) return` exits without fetching whenever the stored token is
falsy — absent or the empty string; otherwise it fetches `/me` with the
bearer token and — ignoring `res.ok` — logs in exactly when the parsed body has
a truthy `user` field; a parse failure or network error lands in `.catch` and
logs out.  The stored token itself is never written or removed here. -/
def validateTokenEffect (stored : Option String) (o : FetchOutcome) : AppResult :=
  match stored with
  | none => { state := initialAppState none, storedToken := none }
  | some t =>
    if t = "" then
      { state := initialAppState (some t), storedToken := some t }
    else
    let s0 := initialAppState (some t)
    { state :=
        (match o with
         | .netErr _ => { s0 with isLoggedIn := false, isAdmin := false }
         | .resp _ json =>
           match json with
           | .error _ => { s0 with isLoggedIn := false, isAdmin := false }
           | .ok data =>
             if data.user = "" then
               { s0 with isLoggedIn := false, isAdmin := false }
             else
               { s0 with isLoggedIn := true, isAdmin := data.is_admin, token := t }),
      storedToken := some t,
      calls := ["/me"] }

/-- `handleLogout` from `App.jsx`: removes the `"token"` storage key, clears
login and admin flags and the token, resets the view; no fetch at all. -/
def handleLogout (s : AppState) (_stored : Option String) : AppResult :=
  { state := { s with isLoggedIn := false, isAdmin := false, token := "",
                      view := "market-overview" },
    storedToken := none,
    calls := [] }

/-- The identity check rejects: network failure, unparsable body, or a parsed
body without a truthy `user` field. -/
def identityRejected : FetchOutcome → Bool
  | .netErr _ => true
  | .resp _ (.error _) => true
  | .resp _ (.ok data) => data.user == ""

/-- A failed call as the claims describe it: network error, non-2xx response,
or a body `res.json()` cannot parse. -/
def isFailureOutcome : FetchOutcome → Bool
  | .netErr _ => true
  | .resp _ (.error _) => true
  | .resp ok (.ok _) => !ok

/-- The password rule as the specification words it: length 8 to 20, all
characters from the allowed set, at least one letter and at least one digit. -/
def specPasswordOk (pw : String) : Prop :=
  8 ≤ pw.length ∧ pw.length ≤ 20 ∧ (∀ c ∈ pw.data, allowedChar c = true) ∧
    (∃ c ∈ pw.data, Char.isAlpha c = true) ∧ (∃ c ∈ pw.data, Char.isDigit c = true)

/-- Claim C9: for every session state and stored value, `handleLogout` clears
the login and admin flags and the token, removes the stored token, and issues
no network call — it always succeeds locally, offline included. -/
theorem C9_logout_always_local (s : AppState) (stored : Option String) :
    (handleLogout s stored).state.isLoggedIn = false ∧
    (handleLogout s stored).state.isAdmin = false ∧
    (handleLogout s stored).state.token = "" ∧
    (handleLogout s stored).storedToken = none ∧
    (handleLogout s stored).calls = [] := by
  simp [handleLogout]

/-- Claim C2, counterexample: toggling the register/login intent while an OTP
is pending leaves the pending flag set and the entered code in place, so the
toggle does not clear the in-flight OTP state. -/
theorem C2_toggle_counterexample :
    ¬ ((toggleRegister { otpStep := true, otp := "123456" }).otpStep = false ∧
       (toggleRegister { otpStep := true, otp := "123456" }).otp = "") := by
  decide

/-- Claim C2, amended: the toggle flips the register intent and clears the
error message only; the OTP-pending flag, the entered code, and the
username/email/password fields are all left unchanged. -/
theorem C2_toggle_clears_only_error (s : LoginState) :
    (toggleRegister s).isRegister = !s.isRegister ∧
    (toggleRegister s).error = "" ∧
    (toggleRegister s).otpStep = s.otpStep ∧
    (toggleRegister s).otp = s.otp ∧
    (toggleRegister s).username = s.username ∧
    (toggleRegister s).email = s.email ∧
    (toggleRegister s).password = s.password := by
  simp [toggleRegister]

/-- Claim C1, counterexample: a non-OK identity response whose body lacks a
`user` field is a rejection, yet the stored token is not removed; and a non-OK
response whose body does carry a `user` field even logs the session in. -/
theorem C1_restore_counterexample :
    ¬ ((validateTokenEffect (some "stale")
          (.resp false (.ok { user := "" }))).storedToken = none) ∧
    (validateTokenEffect (some "tok")
        (.resp false (.ok { user := "alice" }))).state.isLoggedIn = true := by
  decide

/-- Claim C1, amended: whenever a non-empty stored token's identity check
fails at the network level, returns an unparsable body, or returns a body
without a truthy `user` field, the startup effect yields the logged-out state
— but the stored token is left in durable storage untouched (the effect never
removes it), and the response status itself is ignored.  (An empty stored
token is falsy and the effect returns before fetching at all.) -/
theorem C1_restore_rejected (t : String) (o : FetchOutcome)
    (ht : t ≠ "") (h : identityRejected o = true) :
    (validateTokenEffect (some t) o).state.isLoggedIn = false ∧
    (validateTokenEffect (some t) o).state.isAdmin = false ∧
    (validateTokenEffect (some t) o).storedToken = some t ∧
    (validateTokenEffect (some t) o).calls = ["/me"] := by
  cases o with
  | netErr m => simp [validateTokenEffect, initialAppState, ht]
  | resp ok json =>
    cases json with
    | error m => simp [validateTokenEffect, initialAppState, ht]
    | ok data =>
      simp [identityRejected] at h
      simp [validateTokenEffect, initialAppState, ht, h]

/-- Claim C1, witness: the amended theorem at a concrete rejected token. -/
theorem C1_restore_rejected_witness :
    identityRejected (.netErr "offline") = true ∧
    (validateTokenEffect (some "tok") (.netErr "offline")).state.isLoggedIn = false ∧
    (validateTokenEffect (some "tok") (.netErr "offline")).storedToken = some "tok" :=
  ⟨by decide, (C1_restore_rejected "tok" (.netErr "offline") (by decide) (by decide)).1,
    (C1_restore_rejected "tok" (.netErr "offline") (by decide) (by decide)).2.2.1⟩

/-- Claim C3, counterexample: on a rejected password in the registration flow
the submit handler has already issued the register-request-otp call, so a
malformed password does reach the network. -/
theorem C3_validation_counterexample :
    validatePassword "short" = false ∧
    (handleSubmit { isRegister := true, password := "short" }
        (.resp true (.ok {}))).calls = ["/register-request-otp"] := by
  decide

/-- Claim C3, amended: `validatePassword` accepts exactly the strings of
length 8-20 over the allowed character set containing at least one letter and
at least one digit; but a rejected password does not block the network — in
the registration flow the register-request-otp call is issued before
validation, which only gates progression to the OTP step. -/
theorem C3_password_validation (pw : String) (s : LoginState) (data : RespBody) :
    (validatePassword pw = true ↔ specPasswordOk pw) ∧
    (s.isRegister = true → s.otpStep = false → validatePassword s.password = false →
      (handleSubmit s (.resp true (.ok data))).state.otpStep = false ∧
      (handleSubmit s (.resp true (.ok data))).state.error = passwordError ∧
      (handleSubmit s (.resp true (.ok data))).calls = ["/register-request-otp"]) := by
  constructor
  · unfold validatePassword specPasswordOk
    simp [List.all_eq_true, List.any_eq_true, and_assoc]
  · intro hreg hstep hpw
    simp [handleSubmit, hreg, hstep, hpw]

/-- Claim C3, witness: the amended theorem at the password `"short"` (too
short, rejected) and at `"abc123XY"` (accepted). -/
theorem C3_password_validation_witness :
    validatePassword "short" = false ∧
    validatePassword "abc123XY" = true ∧
    validatePassword "abcd123?" = true ∧
    specPasswordOk "abc123XY" ∧
    (handleSubmit { isRegister := true, password := "short" }
        (.resp true (.ok {}))).state.error = passwordError :=
  ⟨by decide, by decide, by decide,
    (C3_password_validation "abc123XY" {} {}).1.mp (by decide),
    ((C3_password_validation "short" { isRegister := true, password := "short" } {}).2
      rfl rfl (by decide)).2.1⟩

/-- Claim C4: in the registration-request branch, a non-2xx response whose
`detail` contains "exists" surfaces exactly that server-provided detail, for
every submitted password (valid or not); local password validation produces
its error and blocks the OTP step only on a 2xx response, i.e. only when the
server reports the identifier as new. -/
theorem C4_duplicate_before_validation (s : LoginState) (data : RespBody)
    (hreg : s.isRegister = true) (hstep : s.otpStep = false) :
    (includesSubstr (toLowerCase data.detail) "exists" = true →
      (handleSubmit s (.resp false (.ok data))).state.error = data.detail ∧
      (handleSubmit s (.resp false (.ok data))).state.otpStep = false) ∧
    (validatePassword s.password = false →
      (handleSubmit s (.resp true (.ok data))).state.error = passwordError ∧
      (handleSubmit s (.resp true (.ok data))).state.otpStep = false) := by
  constructor
  · intro hex
    have hdne : data.detail ≠ "" := by
      intro hd
      rw [hd] at hex
      exact absurd hex (by decide)
    simp [handleSubmit, hreg, hstep, hex, jsOr, hdne]
  · intro hpw
    simp [handleSubmit, hreg, hstep, hpw]

/-- Claim C4, witness: a duplicate-username rejection with an invalid
password surfaces the exact server detail. -/
theorem C4_duplicate_before_validation_witness :
    validatePassword "bad" = false ∧
    (handleSubmit { isRegister := true, password := "bad" }
        (.resp false (.ok { detail := "Username already exists" }))).state.error
      = "Username already exists" :=
  ⟨by decide,
    ((C4_duplicate_before_validation { isRegister := true, password := "bad" }
        { detail := "Username already exists" } rfl rfl).1 (by decide)).1⟩

/-- Claim C5: a 2xx verify-login response carrying a truthy `access_token`
stores exactly that token under the fixed `"token"` storage key, leaves the
OTP-pending step (clearing the entered code), and invokes the login
callback. -/
theorem C5_verify_login_success (s : LoginState) (data : RespBody)
    (h : data.access_token ≠ "") :
    (handleOtpLogin s (.resp true (.ok data))).storage =
      [("token", some data.access_token)] ∧
    (handleOtpLogin s (.resp true (.ok data))).state.otpStep = false ∧
    (handleOtpLogin s (.resp true (.ok data))).state.otp = "" ∧
    (handleOtpLogin s (.resp true (.ok data))).loginCb = true := by
  simp [handleOtpLogin, h]

/-- Claim C5, witness: the theorem at a concrete token value. -/
theorem C5_verify_login_success_witness :
    (handleOtpLogin { username := "trader1", otpStep := true, otp := "123456" }
        (.resp true (.ok { access_token := "tok123" }))).storage =
      [("token", some "tok123")] ∧
    (handleOtpLogin { username := "trader1", otpStep := true, otp := "123456" }
        (.resp true (.ok { access_token := "tok123" }))).loginCb = true :=
  ⟨(C5_verify_login_success { username := "trader1", otpStep := true, otp := "123456" }
      { access_token := "tok123" } (by decide)).1,
    (C5_verify_login_success { username := "trader1", otpStep := true, otp := "123456" }
      { access_token := "tok123" } (by decide)).2.2.2⟩

/-- Claim C6: every failing verify-login call (network error, unparsable body,
or non-2xx response) preserves the OTP-pending flag, the username, password,
entered code, register intent, and email, writes nothing to storage, and never
invokes the login callback — only the error message changes. -/
theorem C6_verify_login_failure (s : LoginState) (o : FetchOutcome)
    (h : isFailureOutcome o = true) :
    (handleOtpLogin s o).state.otpStep = s.otpStep ∧
    (handleOtpLogin s o).state.username = s.username ∧
    (handleOtpLogin s o).state.password = s.password ∧
    (handleOtpLogin s o).state.otp = s.otp ∧
    (handleOtpLogin s o).state.isRegister = s.isRegister ∧
    (handleOtpLogin s o).state.email = s.email ∧
    (handleOtpLogin s o).storage = [] ∧
    (handleOtpLogin s o).loginCb = false := by
  cases o with
  | netErr m => simp [handleOtpLogin]
  | resp ok json =>
    cases json with
    | error m => simp [handleOtpLogin]
    | ok data =>
      simp [isFailureOutcome] at h
      simp [handleOtpLogin, h]

/-- Claim C6, witness: a wrong code on the spec's scenario state keeps the
OTP step pending with the password retained. -/
theorem C6_verify_login_failure_witness :
    isFailureOutcome (.resp false (.ok { detail := "Invalid OTP" })) = true ∧
    (handleOtpLogin
        { username := "trader1", password := "abc123XY", otpStep := true, otp := "000000" }
        (.resp false (.ok { detail := "Invalid OTP" }))).state.otpStep = true ∧
    (handleOtpLogin
        { username := "trader1", password := "abc123XY", otpStep := true, otp := "000000" }
        (.resp false (.ok { detail := "Invalid OTP" }))).state.password = "abc123XY" :=
  ⟨by decide,
    (C6_verify_login_failure
      { username := "trader1", password := "abc123XY", otpStep := true, otp := "000000" }
      (.resp false (.ok { detail := "Invalid OTP" })) (by decide)).1.trans rfl,
    (C6_verify_login_failure
      { username := "trader1", password := "abc123XY", otpStep := true, otp := "000000" }
      (.resp false (.ok { detail := "Invalid OTP" })) (by decide)).2.2.1.trans rfl⟩

/-- Claim C7: in the registration OTP-verification branch the handler never
writes storage and never invokes the login callback; a 2xx response resets the
flow to the login form (register intent and pending flag cleared, code
emptied), and any failing outcome preserves the pending registration state. -/
theorem C7_verify_registration (s : LoginState)
    (hreg : s.isRegister = true) (hstep : s.otpStep = true) :
    (∀ o : FetchOutcome,
      (handleSubmit s o).storage = [] ∧ (handleSubmit s o).loginCb = false) ∧
    (∀ data : RespBody,
      (handleSubmit s (.resp true (.ok data))).state.isRegister = false ∧
      (handleSubmit s (.resp true (.ok data))).state.otpStep = false ∧
      (handleSubmit s (.resp true (.ok data))).state.otp = "") ∧
    (∀ o : FetchOutcome, isFailureOutcome o = true →
      (handleSubmit s o).state.isRegister = true ∧
      (handleSubmit s o).state.otpStep = true ∧
      (handleSubmit s o).state.otp = s.otp) := by
  refine ⟨fun o => ?_, fun data => ?_, fun o h => ?_⟩
  · simp [handleSubmit, hreg, hstep]
  · simp [handleSubmit, hreg, hstep]
  · cases o with
    | netErr m => simp [handleSubmit, hreg, hstep]
    | resp ok json =>
      cases json with
      | error m => simp [handleSubmit, hreg, hstep]
      | ok data =>
        simp [isFailureOutcome] at h
        simp [handleSubmit, hreg, hstep, h]

/-- Claim C7, witness: a successful registration verification at a concrete
state resets to the login form without touching storage. -/
theorem C7_verify_registration_witness :
    (handleSubmit { isRegister := true, otpStep := true, otp := "111111" }
        (.resp true (.ok {}))).state.otpStep = false ∧
    (handleSubmit { isRegister := true, otpStep := true, otp := "111111" }
        (.resp true (.ok {}))).state.isRegister = false ∧
    (handleSubmit { isRegister := true, otpStep := true, otp := "111111" }
        (.resp true (.ok {}))).storage = [] :=
  ⟨((C7_verify_registration { isRegister := true, otpStep := true, otp := "111111" }
      rfl rfl).2.1 {}).2.1,
    ((C7_verify_registration { isRegister := true, otpStep := true, otp := "111111" }
      rfl rfl).2.1 {}).1,
    ((C7_verify_registration { isRegister := true, otpStep := true, otp := "111111" }
      rfl rfl).1 (.resp true (.ok {}))).1⟩

/-- Claim C8, counterexample: a non-2xx login response whose body fails to
parse surfaces the JSON parser's message, not the generic "Error" fallback. -/
theorem C8_unparsable_counterexample :
    (handleSubmit {} (.resp false (.error "Unexpected end of JSON input"))).state.error
      = "Unexpected end of JSON input" ∧
    ¬ ((handleSubmit {} (.resp false (.error "Unexpected end of JSON input"))).state.error
      = "Error") := by
  decide

/-- Claim C8, amended: a non-2xx response with an absent or unparsable body is
tolerated in that the `res.json()` rejection is caught — no crash, no storage
write, no login callback — but the surfaced message is the parser's own error
message; the `detail`/`msg`/generic-"Error" degradation applies only to bodies
that parse. -/
theorem C8_unparsable_body (s : LoginState) (m : String)
    (hreg : s.isRegister = false) :
    ((handleSubmit s (.resp false (.error m))).state = { s with error := m } ∧
     (handleSubmit s (.resp false (.error m))).storage = [] ∧
     (handleSubmit s (.resp false (.error m))).loginCb = false) ∧
    ((handleOtpLogin s (.resp false (.error m))).state = { s with error := m } ∧
     (handleOtpLogin s (.resp false (.error m))).storage = [] ∧
     (handleOtpLogin s (.resp false (.error m))).loginCb = false) := by
  cases s with
  | mk username email password isRegister error otpStep otp =>
    subst hreg
    simp [handleSubmit, handleOtpLogin]

/-- Claim C8, witness: the amended theorem at a concrete parse failure. -/
theorem C8_unparsable_body_witness :
    (handleSubmit {} (.resp false (.error "oops"))).state.error = "oops" := by
  rw [(C8_unparsable_body {} "oops" rfl).1.1]

/-- Claim C10: a 2xx verify-login response whose body lacks an `access_token`
performs no storage operation at all, yet still leaves the OTP-pending step,
clears the code, and invokes the login callback as if authentication
succeeded. -/
theorem C10_missing_token_field (s : LoginState) (data : RespBody)
    (h : data.access_token = "") :
    (handleOtpLogin s (.resp true (.ok data))).storage = [] ∧
    (handleOtpLogin s (.resp true (.ok data))).state.otpStep = false ∧
    (handleOtpLogin s (.resp true (.ok data))).state.otp = "" ∧
    (handleOtpLogin s (.resp true (.ok data))).loginCb = true := by
  simp [handleOtpLogin, h]

/-- Claim C10, witness: the theorem at a concrete bodyless success. -/
theorem C10_missing_token_field_witness :
    (handleOtpLogin { otpStep := true, otp := "123456" }
        (.resp true (.ok {}))).storage = [] ∧
    (handleOtpLogin { otpStep := true, otp := "123456" }
        (.resp true (.ok {}))).loginCb = true :=
  ⟨(C10_missing_token_field { otpStep := true, otp := "123456" } {} rfl).1,
    (C10_missing_token_field { otpStep := true, otp := "123456" } {} rfl).2.2.2⟩
